import Mathlib

/-!
Verification of the O'Plaisir backend (src/main.py, src/schemas.py).

Documents are modelled as association lists of field name / value pairs,
a store as a map from collection names to lists of documents in insertion
order.  The generic document accessor (`create_document`, `get_documents`)
lives in `database.py`, which is not part of the sources; it is modelled
from the specification, section 4.2.  The request handlers are embedded
from `src/main.py`; stateful handlers return the (possibly updated) store
alongside their response.
-/

/-- A JSON-like field value: null, a string, or a number. -/
inductive Value where
  | null : Value
  | str : String → Value
  | num : Rat → Value
deriving DecidableEq

/-- A document: an ordered association list of named fields (a Python dict). -/
abbrev Doc := List (String × Value)

/-- The field names of a document, in order. -/
def Doc.keys (d : Doc) : List String := d.map Prod.fst

/-- Python `d.get(k)`: the value at key `k`, if present. -/
def Doc.get? (d : Doc) (k : String) : Option Value := d.lookup k

/-- Python `d.get(k, v)`: the value at key `k`, defaulting to `v`. -/
def Doc.getD (d : Doc) (k : String) (v : Value) : Value := (d.lookup k).getD v

/-- Python `d.setdefault(k, v)`: insert `k ↦ v` only when `k` is absent
(a Python dict appends a fresh key at the end). -/
def Doc.setdefault (d : Doc) (k : String) (v : Value) : Doc :=
  match d.lookup k with
  | some _ => d
  | none => d ++ [(k, v)]

/-- Modelled from the spec: the document store behind the missing
`database.py` — a map from collection names to documents in store-native
insertion order, plus a counter supplying store-assigned identifiers. -/
structure Store where
  colls : String → List Doc
  nextId : Nat

/-- The empty store: no collection holds any document. -/
def Store.empty : Store := ⟨fun _ => [], 0⟩

/-- A document matches a query exactly when every query field is present
with an equal value (equality-only matching, spec section 4.2). -/
def matchesQuery (d : Doc) (q : Doc) : Bool :=
  q.all (fun kv => d.lookup kv.1 == some kv.2)

/-- Modelled from the spec: `create_document(collection, fields)` from the
missing `database.py` — inserts the fields into the named collection and
returns the stored document including its store-assigned identifier
(spec section 4.2). -/
def create_document (s : Store) (coll : String) (fields : Doc) : Doc × Store :=
  let doc : Doc := (("_id"), Value.str (("id") ++ toString s.nextId)) :: fields
  (doc,
   { colls := fun c => if c = coll then s.colls c ++ [doc] else s.colls c,
     nextId := s.nextId + 1 })

/-- Modelled from the spec: `get_documents(collection, filter, limit)` from
the missing `database.py` — up to `limit` documents whose fields match the
filter exactly, in store-native insertion order (spec section 4.2). -/
def get_documents (s : Store) (coll : String) (q : Doc) (limit : Option Int) :
    List Doc :=
  let ms := (s.colls coll).filter (fun d => matchesQuery d q)
  match limit with
  | none => ms
  | some n => ms.take n.toNat

/-- Modelled from the spec: the store handle's `find_one(filter)` used by
the subscribe handler — the first stored document matching the filter. -/
def find_one (s : Store) (coll : String) (q : Doc) : Option Doc :=
  (s.colls coll).find? (fun d => matchesQuery d q)

/-- Modelled from the spec: the store handle's `count_documents(filter)`
used by the seed handler — how many stored documents match the filter. -/
def count_documents (s : Store) (coll : String) (q : Doc) : Nat :=
  ((s.colls coll).filter (fun d => matchesQuery d q)).length

/-- The request model of `POST /api/products/bestsellers` (`ProductFilter`
in src/main.py): optional tag and category, optional limit defaulting
to 8. -/
structure ProductFilter where
  tag : Option String := none
  category : Option String := none
  limit : Option Int := some 8
deriving DecidableEq

/-- The boundary validation `Field(ge=1, le=50)` on `ProductFilter.limit`:
an explicit limit outside `[1, 50]` is rejected before the handler runs. -/
def ProductFilter.limitValid (limit : Option Int) : Bool :=
  match limit with
  | none => true
  | some n => decide (1 ≤ n) && decide (n ≤ 50)

/-- Python truthiness of an optional string: `None` and `""` are falsy. -/
def truthyStr : Option String → Bool
  | none => false
  | some s => !s.isEmpty

/-- Python truthiness of an optional dict: `None` and `{}` are falsy. -/
def truthyDoc : Option Doc → Bool
  | none => false
  | some d => !d.isEmpty

/-- Python `limit or 8`: `None` and `0` fall back to the default 8. -/
def limitOr8 (limit : Option Int) : Int :=
  match limit with
  | none => 8
  | some n => if n = 0 then 8 else n

/-- The curated degraded-mode sample of `get_bestsellers` (src/main.py
lines 94-116). -/
def sampleProducts : List Doc :=
  [[(("_id"), Value.str ("demo1")),
    (("title"), Value.str ("Panier Chocolat Signature")),
    (("price"), Value.num 89),
    (("image"), Value.str ("https://images.unsplash.com/photo-1542838132-92c53300491e?q=80&w=1200&auto=format&fit=crop")),
    (("tag"), Value.str ("bestseller"))],
   [(("_id"), Value.str ("demo2")),
    (("title"), Value.str ("Coffret Méditerranéen Prestige")),
    (("price"), Value.num 119),
    (("image"), Value.str ("https://images.unsplash.com/photo-1504754524776-8f4f37790ca0?q=80&w=1200&auto=format&fit=crop")),
    (("tag"), Value.str ("bestseller"))],
   [(("_id"), Value.str ("demo3")),
    (("title"), Value.str ("Assortiment Découverte")),
    (("price"), Value.num 59),
    (("image"), Value.str ("https://images.unsplash.com/photo-1519681393784-d120267933ba?q=80&w=1200&auto=format&fit=crop")),
    (("tag"), Value.str ("bestseller"))]]

/-- The placeholder image URL applied by `get_bestsellers` to documents
missing an `image` field (src/main.py line 126). -/
def placeholderImage : String :=
  "https://images.unsplash.com/photo-1542838686-73ca0c37d0e3?q=80&w=1200&auto=format&fit=crop"

/-- The store query built by `get_bestsellers` (src/main.py lines 118-122):
`tag` and `category` enter the query only when truthy. -/
def buildQry (f : ProductFilter) : Doc :=
  (if truthyStr f.tag then [(("tag"), Value.str (f.tag.getD (("")) ))] else []) ++
  (if truthyStr f.category then [(("category"), Value.str (f.category.getD (("")) ))] else [])

/-- The handler of `POST /api/products/bestsellers` (src/main.py
lines 90-127): degraded mode returns the sample truncated to the limit;
the live path queries the product collection and defaults missing images
at read time.  The second component is the store after the request. -/
def get_bestsellers (db : Option Store) (f : ProductFilter) :
    List Doc × Option Store :=
  match db with
  | none => (sampleProducts.take (limitOr8 f.limit).toNat, none)
  | some s =>
    let docs := get_documents s (("product")) (buildQry f) f.limit
    (docs.map (fun d => d.setdefault (("image")) (Value.str placeholderImage)),
     some s)

/-- The fixed degraded-mode testimonial list of `get_testimonials`
(src/main.py lines 132-136). -/
def fixedTestimonials : List Doc :=
  [[(("name"), Value.str ("Sofia")),
    (("message"), Value.str ("Des créations sublimes et un service impeccable.")),
    (("rating"), Value.num 5)],
   [(("name"), Value.str ("Karim")),
    (("message"), Value.str ("Le panier Ramadan a fait sensation dans ma famille.")),
    (("rating"), Value.num 5)],
   [(("name"), Value.str ("Lina")),
    (("message"), Value.str ("Personnalisation parfaite pour notre mariage.")),
    (("rating"), Value.num 4)]]

/-- The per-document shaping of the live testimonial path (src/main.py
line 138): keep exactly name, message and rating, defaulting a missing
rating to 5. -/
def testimonialShape (d : Doc) : Doc :=
  [(("name"), d.getD (("name")) Value.null),
   (("message"), d.getD (("message")) Value.null),
   (("rating"), d.getD (("rating")) (Value.num 5))]

/-- The handler of `GET /api/testimonials` (src/main.py lines 129-138):
three fixed items in degraded mode; otherwise at most 12 stored
testimonials reshaped to name, message and rating. -/
def get_testimonials (db : Option Store) : List Doc × Option Store :=
  match db with
  | none => (fixedTestimonials, none)
  | some s =>
    let docs := get_documents s (("testimonial")) [] (some 12)
    (docs.map testimonialShape, some s)

/-- A handler response carrying a status and a human-readable message. -/
structure ApiMsg where
  status : String
  message : String
deriving DecidableEq

/-- The handler of `POST /api/newsletter/subscribe` (src/main.py
lines 76-88): 503 without a store; otherwise a read-before-write
existence check on the subscriber email. -/
def subscribe_newsletter (db : Option Store) (email : String) :
    Except Nat (ApiMsg × Store) :=
  match db with
  | none => Except.error 503
  | some s =>
    let existing := find_one s (("newslettersubscriber"))
      [(("email"), Value.str email)]
    if truthyDoc existing then
      Except.ok ({ status := ("exists"), message := ("Déjà inscrit") }, s)
    else
      let r := create_document s (("newslettersubscriber"))
        [(("email"), Value.str email)]
      Except.ok ({ status := ("ok"),
                   message := ("Merci pour votre inscription !") }, r.2)

/-- The product documents inserted by `/api/seed` when the product
collection is empty (src/main.py lines 148-152). -/
def seedProducts : List Doc :=
  [[(("title"), Value.str ("Panier Chocolat Premium")),
    (("description"), Value.str ("Truffes et pralinés artisanaux")),
    (("price"), Value.num 89),
    (("category"), Value.str ("paniers")),
    (("tag"), Value.str ("bestseller")),
    (("image"), Value.str ("https://images.unsplash.com/photo-1542838132-92c53300491e?q=80&w=1200&auto=format&fit=crop"))],
   [(("title"), Value.str ("Coffret Méditerranéen")),
    (("description"), Value.str ("Huile d\x27olive, nougat, miel")),
    (("price"), Value.num 119),
    (("category"), Value.str ("paniers")),
    (("tag"), Value.str ("bestseller")),
    (("image"), Value.str ("https://images.unsplash.com/photo-1504754524776-8f4f37790ca0?q=80&w=1200&auto=format&fit=crop"))],
   [(("title"), Value.str ("Panier Découverte")),
    (("description"), Value.str ("Sélection du chef")),
    (("price"), Value.num 59),
    (("category"), Value.str ("paniers")),
    (("tag"), Value.str ("nouveau")),
    (("image"), Value.str ("https://images.unsplash.com/photo-1519681393784-d120267933ba?q=80&w=1200&auto=format&fit=crop"))]]

/-- The testimonial documents inserted by `/api/seed` when the testimonial
collection is empty (src/main.py lines 157-160). -/
def seedTestimonials : List Doc :=
  [[(("name"), Value.str ("Sofia")),
    (("message"), Value.str ("Des créations sublimes et un service impeccable.")),
    (("rating"), Value.num 5)],
   [(("name"), Value.str ("Karim")),
    (("message"), Value.str ("Le panier Ramadan a fait sensation dans ma famille.")),
    (("rating"), Value.num 5)]]

/-- Insert each item in turn via `create_document` (the for-loops of the
seed handler, src/main.py lines 153-154 and 157-161). -/
def insertAll (s : Store) (coll : String) (items : List Doc) : Store :=
  items.foldl (fun st it => (create_document st coll it).2) s

/-- The handler of `POST /api/seed` (src/main.py lines 141-164): 503
without a store; otherwise each seeding step runs only when a pre-count
of its target collection is zero.  Returns the response status and the
store after the request. -/
def seed (db : Option Store) : Except Nat (String × Store) :=
  match db with
  | none => Except.error 503
  | some s =>
    let s1 := if count_documents s (("product")) [] = 0 then
        insertAll s (("product")) seedProducts else s
    let s2 := if count_documents s1 (("testimonial")) [] = 0 then
        insertAll s1 (("testimonial")) seedTestimonials else s1
    Except.ok ((("ok")), s2)

/-- Store states reachable from the empty store through this backend's
write operations (spec section 3: documents are created only by the
newsletter subscription and the seed route, never updated or deleted). -/
inductive Reachable : Store → Prop where
  | init : Reachable Store.empty
  | seedStep (s : Store) (r : String) (s' : Store) :
      Reachable s → seed (some s) = Except.ok (r, s') → Reachable s'
  | subscribeStep (s : Store) (e : String) (r : ApiMsg) (s' : Store) :
      Reachable s → subscribe_newsletter (some s) e = Except.ok (r, s') →
      Reachable s'

section Helpers

/-- A lookup misses exactly when the key is not among the field names. -/
theorem lookup_eq_none_iff_keys (d : Doc) (k : String) :
    d.lookup k = none ↔ k ∉ Doc.keys d := by
  rw [List.lookup_eq_none_iff]
  simp only [bne_iff_ne, ne_eq, Doc.keys]
  constructor
  · intro h hmem
    obtain ⟨p, hp, hpk⟩ := List.mem_map.mp hmem
    exact (h p hp) hpk.symm
  · intro h p hp hk
    exact h (List.mem_map.mpr ⟨p, hp, hk.symm⟩)

/-- When the key already misses the left part, lookup moves to the right. -/
theorem lookup_append_right (k : String) (l1 l2 : List (String × Value))
    (h : l1.lookup k = none) : (l1 ++ l2).lookup k = l2.lookup k := by
  rw [List.lookup_append, h, Option.none_or]

/-- The empty query matches every document. -/
theorem matchesQuery_nil (d : Doc) : matchesQuery d [] = true := rfl

/-- Counting with the empty query counts the whole collection. -/
theorem count_documents_nil (s : Store) (c : String) :
    count_documents s c [] = (s.colls c).length := by
  unfold count_documents
  rw [List.filter_eq_self.mpr]
  intro a _
  rfl

/-- Inserting a batch grows the target collection by the batch size. -/
theorem insertAll_length_self (coll : String) (items : List Doc) (s : Store) :
    ((insertAll s coll items).colls coll).length =
      (s.colls coll).length + items.length := by
  induction items generalizing s with
  | nil => simp [insertAll]
  | cons it its ih =>
    show ((insertAll (create_document s coll it).2 coll its).colls coll).length = _
    rw [ih]
    simp [create_document]
    omega

/-- Inserting a batch leaves every other collection untouched. -/
theorem insertAll_colls_other (coll c : String) (hne : ¬ c = coll)
    (items : List Doc) (s : Store) :
    (insertAll s coll items).colls c = s.colls c := by
  induction items generalizing s with
  | nil => rfl
  | cons it its ih =>
    show (insertAll (create_document s coll it).2 coll its).colls c = _
    rw [ih]
    simp [create_document, hne]

/-- Every document of a batch-extended collection is an old one or a fresh
one: a store-assigned identifier consed onto one of the batch items. -/
theorem insertAll_mem_cases (coll : String) (items : List Doc) (s : Store)
    (d : Doc) (hd : d ∈ (insertAll s coll items).colls coll) :
    d ∈ s.colls coll ∨ ∃ it ∈ items, ∃ id : String,
      d = (("_id"), Value.str id) :: it := by
  induction items generalizing s with
  | nil => exact Or.inl hd
  | cons it its ih =>
    have hd' : d ∈ (insertAll (create_document s coll it).2 coll its).colls coll := hd
    rcases ih _ hd' with h | ⟨it', hit', id, hid⟩
    · simp [create_document] at h
      rcases h with h | h
      · exact Or.inl h
      · exact Or.inr ⟨it, List.mem_cons_self it its, _, h⟩
    · exact Or.inr ⟨it', List.mem_cons_of_mem _ hit', id, hid⟩

end Helpers

/-- C2: with no store configured, `POST /api/products/bestsellers` with an
empty body (all filter fields at their defaults) returns exactly 3 sample
documents titled Panier Chocolat Signature, Coffret Méditerranéen
Prestige, Assortiment Découverte, in that order. -/
theorem C2_degraded_default_three_samples :
    (get_bestsellers none {}).1.length = 3 ∧
    (get_bestsellers none {}).1.map (fun d => Doc.get? d (("title"))) =
      [some (Value.str ("Panier Chocolat Signature")),
       some (Value.str ("Coffret Méditerranéen Prestige")),
       some (Value.str ("Assortiment Découverte"))] :=
  ⟨rfl, rfl⟩

/-- C10: in degraded mode the bestsellers response is a function of the
limit alone; requests differing only in tag or category coincide. -/
theorem C10_degraded_depends_only_on_limit (f1 f2 : ProductFilter)
    (h : f1.limit = f2.limit) :
    get_bestsellers none f1 = get_bestsellers none f2 := by
  simp [get_bestsellers, h]

/-- Witness for C10 at two concrete filters differing in tag and
category. -/
theorem C10_witness :
    get_bestsellers none ⟨some ("bestseller"), none, some 2⟩ =
      get_bestsellers none ⟨none, some ("paniers"), some 2⟩ :=
  C10_degraded_depends_only_on_limit _ _ rfl

/-- C9: an empty-string tag or category is dropped from the store query
exactly like an absent one, and the live bestsellers response is
unchanged by replacing an empty-string filter value with an absent one. -/
theorem C9_empty_string_filter_like_absent (s : Store)
    (tag category : Option String) (limit : Option Int) :
    buildQry ⟨some (("")), category, limit⟩ = buildQry ⟨none, category, limit⟩ ∧
    buildQry ⟨tag, some (("")), limit⟩ = buildQry ⟨tag, none, limit⟩ ∧
    get_bestsellers (some s) ⟨some (("")), category, limit⟩ =
      get_bestsellers (some s) ⟨none, category, limit⟩ ∧
    get_bestsellers (some s) ⟨tag, some (("")), limit⟩ =
      get_bestsellers (some s) ⟨tag, none, limit⟩ := by
  refine ⟨?_, ?_, ?_, ?_⟩ <;>
    simp [buildQry, get_bestsellers, truthyStr, String.isEmpty]

/-- C6: `GET /api/testimonials` returns documents with fields name,
message, rating; the degraded path returns exactly the three fixed items
and the live path at most 12 documents from the testimonial collection. -/
theorem C6_testimonials_shape_and_limits :
    (get_testimonials none).1 = fixedTestimonials ∧
    (∀ d ∈ (get_testimonials none).1,
      Doc.keys d = [(("name")), (("message")), (("rating"))]) ∧
    ∀ s : Store,
      (get_testimonials (some s)).1.length ≤ 12 ∧
      ∀ d ∈ (get_testimonials (some s)).1,
        Doc.keys d = [(("name")), (("message")), (("rating"))] := by
  refine ⟨rfl, ?_, ?_⟩
  · intro d hd
    have hd' : d ∈ fixedTestimonials := hd
    simp only [fixedTestimonials, List.mem_cons, List.not_mem_nil, or_false] at hd'
    rcases hd' with rfl | rfl | rfl <;> rfl
  · intro s
    constructor
    · show ((get_documents s (("testimonial")) [] (some 12)).map
        testimonialShape).length ≤ 12
      rw [List.length_map]
      have : get_documents s (("testimonial")) [] (some 12) =
          ((s.colls (("testimonial"))).filter
            (fun d => matchesQuery d [])).take 12 := rfl
      rw [this, List.length_take]
      exact Nat.min_le_left _ _
    · intro d hd
      have hd' : d ∈ (get_documents s (("testimonial")) [] (some 12)).map
          testimonialShape := hd
      obtain ⟨x, _, rfl⟩ := List.mem_map.mp hd'
      rfl

/-- Witness for C6: the first fixed testimonial has exactly the three
fields, and the live path on the empty store stays within the cap. -/
theorem C6_witness :
    Doc.keys [(("name"), Value.str ("Sofia")),
      (("message"), Value.str ("Des créations sublimes et un service impeccable.")),
      (("rating"), Value.num 5)] = [(("name")), (("message")), (("rating"))] ∧
    (get_testimonials (some Store.empty)).1.length ≤ 12 :=
  ⟨C6_testimonials_shape_and_limits.2.1 _ (List.Mem.head _),
   (C6_testimonials_shape_and_limits.2.2 Store.empty).1⟩

/-- C8: the live testimonial path maps each stored document to exactly the
three keys name, message, rating (all other stored fields are dropped),
and a document with no rating field is reported with rating 5. -/
theorem C8_testimonial_projection (s : Store) (d : Doc)
    (h : Doc.get? d (("rating")) = none) :
    (get_testimonials (some s)).1 =
      (get_documents s (("testimonial")) [] (some 12)).map testimonialShape ∧
    (∀ x : Doc, Doc.keys (testimonialShape x) =
      [(("name")), (("message")), (("rating"))]) ∧
    (testimonialShape d).lookup (("rating")) = some (Value.num 5) := by
  refine ⟨rfl, fun x => rfl, ?_⟩
  have h5 : Doc.getD d (("rating")) (Value.num 5) = Value.num 5 := by
    unfold Doc.getD
    rw [(show d.lookup (("rating")) = none from h)]
    rfl
  have hl : (testimonialShape d).lookup (("rating")) =
      some (Doc.getD d (("rating")) (Value.num 5)) := rfl
  rw [hl, h5]

/-- Witness for C8 on a testimonial document lacking a rating field. -/
theorem C8_witness :
    (testimonialShape [(("name"), Value.str ("X"))]).lookup (("rating")) =
      some (Value.num 5) :=
  (C8_testimonial_projection Store.empty [(("name"), Value.str ("X"))] rfl).2.2

/-- C7: the live bestsellers path leaves the store untouched (the image
default is applied at read time only) and a queried document with no
image field is returned with the fixed placeholder URL. -/
theorem C7_image_default_read_only (s : Store) (f : ProductFilter)
    (d : Doc) (h : Doc.get? d (("image")) = none) :
    (get_bestsellers (some s) f).2 = some s ∧
    (get_bestsellers (some s) f).1 =
      (get_documents s (("product")) (buildQry f) f.limit).map
        (fun x => x.setdefault (("image")) (Value.str placeholderImage)) ∧
    (d.setdefault (("image")) (Value.str placeholderImage)).lookup (("image")) =
      some (Value.str placeholderImage) := by
  refine ⟨rfl, rfl, ?_⟩
  have hsd : d.setdefault (("image")) (Value.str placeholderImage) =
      d ++ [(("image"), Value.str placeholderImage)] := by
    unfold Doc.setdefault
    rw [(show d.lookup (("image")) = none from h)]
  rw [hsd, lookup_append_right _ _ _ h]
  rfl

/-- Witness for C7 on a product document lacking an image field. -/
theorem C7_witness :
    (Doc.setdefault ([(("title"), Value.str ("T"))]) (("image"))
        (Value.str placeholderImage)).lookup (("image")) =
      some (Value.str placeholderImage) ∧
    (get_bestsellers (some Store.empty) {}).2 = some Store.empty :=
  ⟨(C7_image_default_read_only Store.empty {} [(("title"), Value.str ("T"))]
      rfl).2.2,
   (C7_image_default_read_only Store.empty {} [(("title"), Value.str ("T"))]
      rfl).1⟩

/-- The store obtained by running `/api/seed` on the empty store: three
products then two testimonials, in insertion order. -/
def seededStore : Store :=
  insertAll (insertAll Store.empty (("product")) seedProducts)
    (("testimonial")) seedTestimonials

/-- C4: the boundary validation rejects limit 0 and limit 51, and with
limit 1 the bestsellers endpoint returns exactly one document whenever at
least one matching document exists — in the sample (degraded mode) or in
the product collection (live mode). -/
theorem C4_limit_boundaries :
    ProductFilter.limitValid (some 0) = false ∧
    ProductFilter.limitValid (some 51) = false ∧
    (∀ tag category : Option String,
      (get_bestsellers none ⟨tag, category, some 1⟩).1.length = 1) ∧
    ∀ (s : Store) (tag category : Option String),
      (s.colls (("product"))).filter
          (fun d => matchesQuery d (buildQry ⟨tag, category, some 1⟩)) ≠ [] →
      (get_bestsellers (some s) ⟨tag, category, some 1⟩).1.length = 1 := by
  refine ⟨rfl, rfl, fun tag category => rfl, ?_⟩
  intro s tag category hne
  have hlen : 0 < ((s.colls (("product"))).filter
      (fun d => matchesQuery d (buildQry ⟨tag, category, some 1⟩))).length :=
    List.length_pos.mpr hne
  show ((get_documents s (("product")) (buildQry ⟨tag, category, some 1⟩)
      (some 1)).map (fun d => d.setdefault (("image"))
        (Value.str placeholderImage))).length = 1
  rw [List.length_map]
  have hgd : get_documents s (("product")) (buildQry ⟨tag, category, some 1⟩)
      (some 1) = ((s.colls (("product"))).filter
        (fun d => matchesQuery d (buildQry ⟨tag, category, some 1⟩))).take 1 :=
    rfl
  rw [hgd, List.length_take]
  omega

/-- Witness for C4: limit 1 on the seeded store and in degraded mode. -/
theorem C4_witness :
    ProductFilter.limitValid (some 0) = false ∧
    ProductFilter.limitValid (some 51) = false ∧
    (get_bestsellers none ⟨none, none, some 1⟩).1.length = 1 ∧
    (get_bestsellers (some seededStore) ⟨none, none, some 1⟩).1.length = 1 :=
  ⟨C4_limit_boundaries.1, C4_limit_boundaries.2.1,
   C4_limit_boundaries.2.2.1 none none,
   C4_limit_boundaries.2.2.2 seededStore none none (by decide)⟩

/-- How many stored newsletter subscriber documents carry the given
email, measured with the handler's own matcher. -/
def emailCount (s : Store) (e : String) : Nat :=
  count_documents s (("newslettersubscriber")) [(("email"), Value.str e)]

/-- C3: with the store available and no document yet carrying the email,
subscribing twice with the same email succeeds on the first call, answers
status exists on the second, and leaves exactly one stored document with
that email. -/
theorem C3_subscribe_twice_unique (s : Store) (e : String)
    (h : emailCount s e = 0) :
    ∃ r1 s1 r2 s2,
      subscribe_newsletter (some s) e = Except.ok (r1, s1) ∧
      subscribe_newsletter (some s1) e = Except.ok (r2, s2) ∧
      r1.status = (("ok")) ∧ r2.status = (("exists")) ∧
      emailCount s2 e = 1 := by
  have hfilter : (s.colls (("newslettersubscriber"))).filter
      (fun d => matchesQuery d [(("email"), Value.str e)]) = [] :=
    List.length_eq_zero.mp h
  have hall : ∀ d ∈ s.colls (("newslettersubscriber")),
      ¬ matchesQuery d [(("email"), Value.str e)] = true := by
    intro d hd
    exact List.filter_eq_nil_iff.mp hfilter d hd
  have hfind : find_one s (("newslettersubscriber"))
      [(("email"), Value.str e)] = none := by
    unfold find_one
    exact List.find?_eq_none.mpr hall
  have h1 : subscribe_newsletter (some s) e = Except.ok
      ({ status := ("ok"), message := ("Merci pour votre inscription !") },
       (create_document s (("newslettersubscriber"))
         [(("email"), Value.str e)]).2) := by
    simp only [subscribe_newsletter]
    rw [hfind]
    rfl
  set doc : Doc := (("_id"), Value.str (("id") ++ toString s.nextId)) ::
    [(("email"), Value.str e)] with hdocdef
  set s1 : Store := (create_document s (("newslettersubscriber"))
    [(("email"), Value.str e)]).2 with hs1def
  have hcolls : s1.colls (("newslettersubscriber")) =
      s.colls (("newslettersubscriber")) ++ [doc] := by
    simp [hs1def, create_document, hdocdef]
  have hpdoc : matchesQuery doc [(("email"), Value.str e)] = true := by
    have hl : doc.lookup (("email")) = some (Value.str e) := rfl
    simp [matchesQuery, hl]
  have hfind2 : find_one s1 (("newslettersubscriber"))
      [(("email"), Value.str e)] = some doc := by
    unfold find_one
    rw [hcolls, List.find?_append, List.find?_eq_none.mpr hall]
    rw [Option.none_or,
      List.find?_cons_of_pos
        (p := fun d => matchesQuery d [(("email"), Value.str e)]) _ hpdoc]
  have h2 : subscribe_newsletter (some s1) e = Except.ok
      ({ status := ("exists"), message := ("Déjà inscrit") }, s1) := by
    simp only [subscribe_newsletter]
    rw [hfind2]
    rfl
  have hcount : emailCount s1 e = 1 := by
    unfold emailCount count_documents
    rw [hcolls, List.filter_append, hfilter]
    simp [hpdoc]
  exact ⟨_, s1, _, s1, h1, h2, rfl, rfl, hcount⟩

/-- Witness for C3: two subscriptions with the same address on the empty
store. -/
theorem C3_witness :
    ∃ r1 s1 r2 s2,
      subscribe_newsletter (some Store.empty) (("sofia@example.com")) =
        Except.ok (r1, s1) ∧
      subscribe_newsletter (some s1) (("sofia@example.com")) =
        Except.ok (r2, s2) ∧
      r1.status = (("ok")) ∧ r2.status = (("exists")) ∧
      emailCount s2 (("sofia@example.com")) = 1 :=
  C3_subscribe_twice_unique Store.empty (("sofia@example.com")) rfl

/-- After a successful seed call both target collections are nonempty. -/
theorem seed_store_counts (s : Store) (r : String) (s' : Store)
    (h : seed (some s) = Except.ok (r, s')) :
    count_documents s' (("product")) [] ≠ 0 ∧
    count_documents s' (("testimonial")) [] ≠ 0 := by
  simp only [seed, Except.ok.injEq, Prod.mk.injEq] at h
  obtain ⟨hr, hs⟩ := h
  subst hs
  set s1 := (if count_documents s (("product")) [] = 0 then
      insertAll s (("product")) seedProducts else s) with hs1
  have hp1 : (s1.colls (("product"))).length ≠ 0 := by
    rw [hs1]
    by_cases h1 : count_documents s (("product")) [] = 0
    · rw [if_pos h1, insertAll_length_self]
      have h3 : seedProducts.length = 3 := rfl
      omega
    · rw [if_neg h1]
      rw [count_documents_nil] at h1
      exact h1
  constructor
  · rw [count_documents_nil]
    by_cases h2 : count_documents s1 (("testimonial")) [] = 0
    · rw [if_pos h2, insertAll_colls_other _ _ (by decide)]
      exact hp1
    · rw [if_neg h2]
      exact hp1
  · rw [count_documents_nil]
    by_cases h2 : count_documents s1 (("testimonial")) [] = 0
    · rw [if_pos h2, insertAll_length_self]
      have h3 : seedTestimonials.length = 2 := rfl
      omega
    · rw [if_neg h2]
      rw [count_documents_nil] at h2
      exact h2

/-- C5: calling `/api/seed` twice with the store available inserts
nothing on the second call: both seeding steps are guarded by pre-count
checks, so the second call returns ok with the store unchanged. -/
theorem C5_seed_second_call_noop (s : Store) (r1 : String) (sAfter : Store)
    (h : seed (some s) = Except.ok (r1, sAfter)) :
    seed (some sAfter) = Except.ok ((("ok")), sAfter) := by
  obtain ⟨hp, ht⟩ := seed_store_counts s r1 sAfter h
  simp only [seed]
  rw [if_neg hp, if_neg ht]

/-- Witness for C5: seeding the empty store twice. -/
theorem C5_witness :
    seed (some seededStore) = Except.ok ((("ok")), seededStore) :=
  C5_seed_second_call_noop Store.empty (("ok")) seededStore rfl

/-- In every store reachable through this backend's own write operations,
each document of the product collection carries exactly the seven field
names of a seeded product: the store-assigned identifier followed by the
six seeded fields. -/
theorem reachable_product_keys (s : Store) (h : Reachable s) :
    ∀ d ∈ s.colls (("product")), Doc.keys d =
      [(("_id")), (("title")), (("description")), (("price")),
       (("category")), (("tag")), (("image"))] := by
  induction h with
  | init =>
    intro d hd
    exact absurd hd (List.not_mem_nil d)
  | seedStep s0 r s' h0 heq ih =>
    intro d hd
    simp only [seed, Except.ok.injEq, Prod.mk.injEq] at heq
    obtain ⟨hr, hs⟩ := heq
    subst hs
    set s1 := (if count_documents s0 (("product")) [] = 0 then
        insertAll s0 (("product")) seedProducts else s0) with hs1
    have hd1 : d ∈ s1.colls (("product")) := by
      by_cases h2 : count_documents s1 (("testimonial")) [] = 0
      · rw [if_pos h2, insertAll_colls_other _ _ (by decide)] at hd
        exact hd
      · rw [if_neg h2] at hd
        exact hd
    rw [hs1] at hd1
    by_cases h1 : count_documents s0 (("product")) [] = 0
    · rw [if_pos h1] at hd1
      rcases insertAll_mem_cases _ _ _ _ hd1 with hmem | ⟨it, hit, id, rfl⟩
      · exact ih d hmem
      · simp only [seedProducts, List.mem_cons, List.not_mem_nil,
          or_false] at hit
        rcases hit with rfl | rfl | rfl <;> rfl
    · rw [if_neg h1] at hd1
      exact ih d hd1
  | subscribeStep s0 e r s' h0 heq ih =>
    intro d hd
    simp only [subscribe_newsletter] at heq
    by_cases hex : truthyDoc (find_one s0 (("newslettersubscriber"))
        [(("email"), Value.str e)]) = true
    · rw [if_pos hex] at heq
      simp only [Except.ok.injEq, Prod.mk.injEq] at heq
      obtain ⟨-, hs⟩ := heq
      subst hs
      exact ih d hd
    · rw [if_neg hex] at heq
      simp only [Except.ok.injEq, Prod.mk.injEq] at heq
      obtain ⟨-, hs⟩ := heq
      subst hs
      have hunch : (create_document s0 (("newslettersubscriber"))
          [(("email"), Value.str e)]).2.colls (("product")) =
          s0.colls (("product")) := by
        simp [create_document]
      rw [hunch] at hd
      exact ih d hd

/-- C1: over every store reachable through this backend's writes, each
degraded-mode bestsellers document has a field-name set contained in that
of every live-path bestsellers document. -/
theorem C1_degraded_fields_subset_live (s : Store) (h : Reachable s)
    (f1 f2 : ProductFilter) (dd ld : Doc)
    (hdd : dd ∈ (get_bestsellers none f1).1)
    (hld : ld ∈ (get_bestsellers (some s) f2).1) :
    Doc.keys dd ⊆ Doc.keys ld := by
  have hld' : ld ∈ (get_documents s (("product")) (buildQry f2) f2.limit).map
      (fun x => x.setdefault (("image")) (Value.str placeholderImage)) := hld
  obtain ⟨d0, hd0, rfl⟩ := List.mem_map.mp hld'
  have hd0mem : d0 ∈ s.colls (("product")) := by
    cases hlim : f2.limit with
    | none =>
      have hgd : get_documents s (("product")) (buildQry f2) f2.limit =
          (s.colls (("product"))).filter
            (fun d => matchesQuery d (buildQry f2)) := by
        rw [hlim]
        rfl
      rw [hgd] at hd0
      exact (List.mem_filter.mp hd0).1
    | some n =>
      have hgd : get_documents s (("product")) (buildQry f2) f2.limit =
          ((s.colls (("product"))).filter
            (fun d => matchesQuery d (buildQry f2))).take n.toNat := by
        rw [hlim]
        rfl
      rw [hgd] at hd0
      exact (List.mem_filter.mp (List.mem_of_mem_take hd0)).1
  have hkeys0 : Doc.keys d0 =
      [(("_id")), (("title")), (("description")), (("price")),
       (("category")), (("tag")), (("image"))] :=
    reachable_product_keys s h d0 hd0mem
  have himg : ¬ d0.lookup (("image")) = none := by
    intro hn
    rw [lookup_eq_none_iff_keys, hkeys0] at hn
    exact hn (by decide)
  obtain ⟨v, hv⟩ := Option.ne_none_iff_exists'.mp himg
  have hsd : Doc.setdefault d0 (("image")) (Value.str placeholderImage) = d0 := by
    unfold Doc.setdefault
    rw [hv]
  rw [hsd, hkeys0]
  have hdd2 : dd ∈ sampleProducts.take (limitOr8 f1.limit).toNat := hdd
  have hdd' : dd ∈ sampleProducts := List.mem_of_mem_take hdd2
  have hk : Doc.keys dd =
      [(("_id")), (("title")), (("price")), (("image")), (("tag"))] := by
    simp only [sampleProducts, List.mem_cons, List.not_mem_nil,
      or_false] at hdd'
    rcases hdd' with rfl | rfl | rfl <;> rfl
  rw [hk]
  intro a ha
  fin_cases ha <;> decide

/-- Witness for C1: the first degraded document against the first live
document over the seeded store. -/
theorem C1_witness :
    Doc.keys (((get_bestsellers none ⟨none, none, some 8⟩).1).headD []) ⊆
      Doc.keys (((get_bestsellers (some seededStore)
        ⟨none, none, some 8⟩).1).headD []) :=
  C1_degraded_fields_subset_live seededStore
    (Reachable.seedStep Store.empty (("ok")) seededStore Reachable.init rfl)
    ⟨none, none, some 8⟩ ⟨none, none, some 8⟩ _ _
    (List.Mem.head _) (List.Mem.head _)

/-- Witness for C9: an empty-string tag on the empty store behaves like
an absent tag. -/
theorem C9_witness :
    get_bestsellers (some Store.empty) ⟨some (("")), none, some 8⟩ =
      get_bestsellers (some Store.empty) ⟨none, none, some 8⟩ :=
  (C9_empty_string_filter_like_absent Store.empty none none (some 8)).2.2.1
